import Mathlib

/-!
Verification of the KPI-builder CSV ingestion pipeline.

The repository has three pipeline variants:
* `src/backend/data/seed_sqlite.py` — the full SQLite variant
  (`infer_timestamp_col`, `process_dataframe`, `create_schema`,
  `create_indexes`, `main`);
* `src/seed_sqlite.py` — the minimal SQLite variant;
* `src/frontend/seed_postgres.py` — the PostgreSQL variant
  (`convert_boolean`, `load_csv_data`, `main`).

The definitions below are a shallow embedding of those scripts.  Floating
point values are modelled as rationals, pandas missing values (NaN / NaT /
None) as `Option`, and raised Python exceptions as `Except.error`.
-/

set_option allowUnsafeReducibility true in
attribute [semireducible] Rat.mul Rat.add Rat.sub Rat.inv Rat.div

deriving instance DecidableEq for Except

namespace KPI

/-- Python `str.lower()`, character by character. -/
def pyLower (s : String) : String :=
  String.mk (s.toList.map Char.toLower)

/-! ### Modelled Python / pandas primitives -/

/-- Numeric value of a digit list, most significant first. -/
def digitsVal (cs : List Char) : Nat :=
  cs.foldl (fun a c => a * 10 + (c.toNat - 48)) 0

/-- Models Python `float(s)` / `pandas.to_numeric` on one cell, restricted to
plain decimal literals: an optional sign, digits, and an optional fractional
part.  Any other string fails (Python raises `ValueError`, pandas with
`errors='coerce'` yields NaN). -/
def pyFloat? (s : String) : Option ℚ :=
  let p : ℚ × List Char :=
    match s.toList with
    | '-' :: r => (-1, r)
    | '+' :: r => (1, r)
    | r => (1, r)
  match p.2.splitOn '.' with
  | [ip] =>
      if ip ≠ [] ∧ ip.all Char.isDigit then some (p.1 * digitsVal ip) else none
  | [ip, fp] =>
      if (ip ≠ [] ∨ fp ≠ []) ∧ ip.all Char.isDigit ∧ fp.all Char.isDigit then
        some (p.1 * ((digitsVal ip : ℚ) + (digitsVal fp : ℚ) / ((10 : ℚ) ^ fp.length)))
      else none
  | _ => none

/-- Models Python `int(s)` on plain decimal integer literals. -/
def pyInt? (s : String) : Option Int :=
  let p : Int × List Char :=
    match s.toList with
    | '-' :: r => (-1, r)
    | '+' :: r => (1, r)
    | r => (1, r)
  if p.2 ≠ [] ∧ p.2.all Char.isDigit then some (p.1 * (digitsVal p.2 : Int)) else none

/-! ### Timestamp normalizer (numeric path)

`src/backend/data/seed_sqlite.py` lines 93-98 and `src/seed_sqlite.py`
lines 19-24 (identical logic):

    factor = 1000 if df[ts_col].astype('int64').max() > 10_000_000_000 else 1
    df['t'] = pd.to_datetime(df[ts_col], unit='ms' if factor == 1000 else 's', utc=True)
-/

/-- numpy `astype('int64')` on one finite float: truncation toward zero. -/
def int64Cast (q : ℚ) : Int := if 0 ≤ q then ⌊q⌋ else ⌈q⌉

/-- The literal `10_000_000_000` of the source. -/
def epochCutoff : Int := 10000000000

/-- `df[ts_col].astype('int64').max()` over a numeric column. -/
def int64ColumnMax (col : List ℚ) : Int :=
  ((col.map int64Cast).max?).getD 0

/-- The `factor` chosen by the source for a whole numeric column. -/
def epochFactor (col : List ℚ) : ℚ :=
  if epochCutoff < int64ColumnMax col then 1000 else 1

/-- Largest `datetime64[ns]` instant in nanoseconds (`pd.Timestamp.max.value`,
the largest int64). -/
def maxTimestampNs : ℚ := 9223372036854775807

/-- Smallest `datetime64[ns]` instant in nanoseconds; the most negative int64
is reserved for NaT. -/
def minTimestampNs : ℚ := -9223372036854775807

/-- Nanoseconds per input value for the chosen unit: the source passes
`unit='ms'` when `factor == 1000` (10^6 ns per value), `unit='s'` otherwise
(10^9 ns per value). -/
def nsPerUnit (factor : ℚ) : ℚ :=
  if factor = 1000 then 1000000 else 1000000000

/-- `pd.to_datetime(values, unit=..., utc=True)` with the default
`errors='raise'`: each value is an epoch count in the chosen unit; a value
whose nanosecond instant leaves the `datetime64[ns]` range raises
`OutOfBoundsDatetime`, otherwise it becomes the UTC instant `value / factor`
seconds after the epoch.  (Sub-nanosecond rounding at the exact range edge is
not modelled; nothing in this file evaluates within 1 ns of it.) -/
def toDatetimeVals (factor : ℚ) : List ℚ → Except String (List ℚ)
  | [] => .ok []
  | v :: rest =>
      if maxTimestampNs < v * nsPerUnit factor ∨ v * nsPerUnit factor < minTimestampNs then
        .error "Out of bounds nanosecond timestamp"
      else
        match toDatetimeVals factor rest with
        | .error e => .error e
        | .ok ts => .ok (v / factor :: ts)

/-- The numeric timestamp path over the column's values: one factor for the
whole column, decided by the int64-cast maximum, then the raising conversion. -/
def normalizeNumericValues (vals : List ℚ) : Except String (List ℚ) :=
  toDatetimeVals (epochFactor vals) vals

/-- Claim C1 as the spec states it, for comparison with the source: the unit
is decided by the column's (un-truncated) maximum value — every value is
(successfully) converted as milliseconds when that maximum exceeds 10^10, as
seconds otherwise. -/
def specNumericUnitRule (vals : List ℚ) : Prop :=
  ((10000000000 : ℚ) < (vals.max?).getD 0 →
      normalizeNumericValues vals = .ok (vals.map (fun v => v / 1000))) ∧
  (¬ (10000000000 : ℚ) < (vals.max?).getD 0 →
      normalizeNumericValues vals = .ok vals)

/-! ### Column resolver -/

/-- The priority list of `infer_timestamp_col` (identical in both SQLite
variants). -/
def tsCandidates : List String := ["t", "timestamp", "time"]

/-- `infer_timestamp_col(df)`: first candidate present among the headers,
`KeyError` when none is. -/
def infer_timestamp_col (headers : List String) : Except String String :=
  match tsCandidates.find? (fun cand => headers.contains cand) with
  | some cand => .ok cand
  | none => .error "No timestamp column found (expected one of t/timestamp/time)"

/-- Class aliases of the full SQLite variant
(`src/backend/data/seed_sqlite.py` line 103). -/
def classAliases : List String := ["class_name", "label", "type"]

/-- Class aliases of the minimal variant (`src/seed_sqlite.py` line 28):
`type` is missing there. -/
def classAliasesMinimal : List String := ["class_name", "label"]

/-- The rename applied by `df.rename(columns=rename_map)` in the full SQLite
variant: every header whose lowercase form is an alias becomes `class`. -/
def renameClassColumns (headers : List String) : List String :=
  headers.map (fun c => if pyLower c ∈ classAliases then "class" else c)

/-- The same rename in the minimal variant. -/
def renameClassColumnsMinimal (headers : List String) : List String :=
  headers.map (fun c => if pyLower c ∈ classAliasesMinimal then "class" else c)

/-- Required canonical columns checked by both SQLite variants. -/
def requiredCols : List String := ["id", "class", "x", "y", "t"]

/-- The assignment `df['t'] = ...` adds a `t` column when none exists. -/
def addTColumn (headers : List String) : List String :=
  if headers.contains "t" then headers else headers ++ ["t"]

/-- Headers after timestamp normalization and class renaming in the full
SQLite variant. -/
def backendResolvedHeaders (headers : List String) : List String :=
  renameClassColumns (addTColumn headers)

/-! ### Row validator / cleaner (SQLite variants)

A raw dataframe cell is a missing value (pandas NaN), a number, or a string.
A `Row` is one input row after column resolution, with the timestamp
normalizer's per-row output already attached (`t`, the new `t` column;
`none` models NaT from a failed parse). -/

inductive Cell where
  | null
  | num (q : ℚ)
  | str (s : String)
deriving DecidableEq

/-- `pd.to_numeric(cell, errors='coerce')`: numbers pass through, strings are
parsed, failures and missing values become NaN (`none`). -/
def to_numeric_coerce : Cell → Option ℚ
  | .null => none
  | .num q => some q
  | .str s => pyFloat? s

/-- `df['area'].astype(str).replace('nan', None)` on one cell: NaN prints as
the string `nan` and is then replaced by None. -/
def areaClean : Cell → Option String
  | .null => none
  | .num q => some (toString q)
  | .str s => if s = "nan" then none else some s

/-- Whether the resolved timestamp column has numeric dtype
(`is_integer_dtype` or `is_float_dtype` after `read_csv`): every cell is a
number or a missing value (NaN keeps a column float-typed); any string cell
makes the column object-typed. -/
def isNumericDtype (col : List Cell) : Bool :=
  col.all fun c =>
    match c with
    | .num _ => true
    | .null => true
    | .str _ => false

/-- The values of a numeric column as `df[ts_col].astype('int64')` reads
them: a missing value (NaN in a float column) raises
`Cannot convert non-finite values (NA or inf) to integer`. -/
def numericValues : List Cell → Except String (List ℚ)
  | [] => .ok []
  | c :: rest =>
      match c with
      | .num q =>
          match numericValues rest with
          | .error e => .error e
          | .ok vs => .ok (q :: vs)
      | _ => .error "Cannot convert non-finite values (NA or inf) to integer"

/-- The numeric timestamp path over the raw column
(`src/backend/data/seed_sqlite.py` lines 93-96): `astype('int64')` may raise
on non-finite values while the factor is computed, then the raising
`to_datetime(unit=...)` conversion runs. -/
def normalizeNumericColumn (col : List Cell) : Except String (List ℚ) :=
  match numericValues col with
  | .error e => .error e
  | .ok vals => normalizeNumericValues vals

/-- The timestamp normalizer stage over the resolved column.  `textual` is
the per-cell result of `pd.to_datetime(..., utc=True, errors='coerce')` on a
non-numeric column, supplied as data (NaT = `none`); that path never raises.
The numeric path uses the raising conversion above. -/
def normalizeTimestampColumn (col : List Cell) (textual : List (Option ℚ)) :
    Except String (List (Option ℚ)) :=
  if isNumericDtype col then
    match normalizeNumericColumn col with
    | .error e => .error e
    | .ok ts => .ok (ts.map some)
  else .ok textual

structure Row where
  id : Cell
  cls : Cell
  x : Cell
  y : Cell
  heading : Cell
  speed : Cell
  vest : Cell
  area : Cell
  t : Option ℚ
deriving DecidableEq

/-- One row of the full SQLite variant after the numeric casts and area
handling of `process_dataframe`. -/
structure ProcRow where
  id : Cell
  cls : Cell
  x : Option ℚ
  y : Option ℚ
  heading : Option ℚ
  speed : Option ℚ
  vest : Option ℚ
  area : Option String
  t : Option ℚ
deriving DecidableEq

/-- The per-row coercions of `process_dataframe` (lines 117-126). -/
def coerceRow (r : Row) : ProcRow :=
  { id := r.id, cls := r.cls,
    x := to_numeric_coerce r.x, y := to_numeric_coerce r.y,
    heading := to_numeric_coerce r.heading, speed := to_numeric_coerce r.speed,
    vest := to_numeric_coerce r.vest,
    area := areaClean r.area, t := r.t }

/-- Row-level behaviour of `process_dataframe` in the full SQLite variant:
numeric casts, then `dropna(subset=['x','y'])`, then `dropna(subset=['t'])`. -/
def process_dataframe (rows : List Row) : List ProcRow :=
  (((rows.map coerceRow).filter fun r => r.x.isSome && r.y.isSome).filter
    fun r => r.t.isSome)

/-- One persisted row of the minimal variant (`src/seed_sqlite.py` line 42
selects `id, class, t, x, y, heading, vest, speed` — no `area`, and no
`dropna` has run). -/
structure MinRow where
  id : Cell
  cls : Cell
  t : Option ℚ
  x : Option ℚ
  y : Option ℚ
  heading : Option ℚ
  vest : Option ℚ
  speed : Option ℚ
deriving DecidableEq

/-- The minimal variant's whole row stage: numeric casts only, every row kept. -/
def minimalCoerceRow (r : Row) : MinRow :=
  { id := r.id, cls := r.cls, t := r.t,
    x := to_numeric_coerce r.x, y := to_numeric_coerce r.y,
    heading := to_numeric_coerce r.heading, vest := to_numeric_coerce r.vest,
    speed := to_numeric_coerce r.speed }

/-- Rows the minimal variant hands to `to_sql` — it never drops a row. -/
def minimal_persisted (rows : List Row) : List MinRow :=
  rows.map minimalCoerceRow

/-! ### SQLite store model

`create_schema` runs `CREATE TABLE IF NOT EXISTS detections (... PRIMARY KEY
(id, t))`; `create_indexes` runs `CREATE INDEX IF NOT EXISTS ...` statements.
`df.to_sql('detections', con, if_exists='replace', ...)` then *drops* the
existing table and recreates it from the dataframe's own schema — pandas
emits no constraints, so the recreated table has no primary key — and inserts
every dataframe row. -/

/-- The persisted column selection of the full SQLite variant
(line 172: `df[['id','class','t','x','y','heading','vest','speed','area']]`). -/
structure DBRow where
  id : Cell
  cls : Cell
  t : Option ℚ
  x : Option ℚ
  y : Option ℚ
  heading : Option ℚ
  vest : Option ℚ
  speed : Option ℚ
  area : Option String
deriving DecidableEq

def projectRow (r : ProcRow) : DBRow :=
  { id := r.id, cls := r.cls, t := r.t, x := r.x, y := r.y,
    heading := r.heading, vest := r.vest, speed := r.speed, area := r.area }

/-- The `detections` table: its rows and whether it carries
`PRIMARY KEY (id, t)`. -/
structure Table where
  rows : List DBRow
  hasPKidT : Bool
deriving DecidableEq

/-- The database: `none` when the `detections` table does not exist. -/
abbrev Store := Option Table

/-- `CREATE TABLE IF NOT EXISTS detections (..., PRIMARY KEY (id, t))`. -/
def create_schema : Store → Store
  | none => some { rows := [], hasPKidT := true }
  | some tb => some tb

/-- `CREATE INDEX IF NOT EXISTS ...`: changes neither rows nor keys. -/
def create_indexes (s : Store) : Store := s

/-- `DataFrame.to_sql(..., if_exists='replace')`: drop the table (with its
primary key) and recreate it from the frame without constraints, inserting
all frame rows. -/
def to_sql_replace (frame : List DBRow) (_s : Store) : Store :=
  some { rows := frame, hasPKidT := false }

/-- The write path of the full SQLite variant's `main` (lines 167-178):
schema, indexes, then the replace-mode bulk insert. -/
def runBackendReplace (rows : List Row) (s : Store) : Store :=
  to_sql_replace ((process_dataframe rows).map projectRow)
    (create_indexes (create_schema s))

/-- The verifier's aggregate statistics: row count, distinct class count,
min and max timestamp. -/
def storeStats (s : Store) : Nat × Nat × Option ℚ × Option ℚ :=
  match s with
  | none => (0, 0, none, none)
  | some tb =>
      (tb.rows.length, (tb.rows.map DBRow.cls).dedup.length,
        (tb.rows.filterMap DBRow.t).min?, (tb.rows.filterMap DBRow.t).max?)

/-- `df['t'] = ...`: attach the normalizer's per-row output to the rows. -/
def attachT (rows : List Row) (ts : List (Option ℚ)) : List Row :=
  (rows.zip ts).map fun p => { p.1 with t := p.2 }

/-- The full SQLite variant's `main` up to its write: timestamp-column
resolution, then timestamp normalization (whose numeric path can raise), then
the required-column check — all inside `process_dataframe`, before any
connection to the store.  Any exception is caught by `main` and turned into
exit status 1 with the store untouched.  `tsCol` is the resolved raw
timestamp column and `textual` the text parser's per-row output for it.
Returns the final store and the exit status. -/
def backendMainRun (headers : List String) (tsCol : List Cell)
    (textual : List (Option ℚ)) (rows : List Row) (s : Store) : Store × Nat :=
  match infer_timestamp_col headers with
  | .error _ => (s, 1)
  | .ok _ =>
      match normalizeTimestampColumn tsCol textual with
      | .error _ => (s, 1)
      | .ok ts =>
          if requiredCols.all (fun c => (backendResolvedHeaders headers).contains c) then
            (runBackendReplace (attachT rows ts) s, 0)
          else (s, 1)

/-- The minimal variant's `to_sql(..., if_exists='replace')`: same replace
semantics, on its narrower column set. -/
def minimal_to_sql_replace (frame : List MinRow) (_s : Option (List MinRow)) :
    Option (List MinRow) :=
  some frame

/-- The minimal variant's write path (`src/seed_sqlite.py` lines 41-42). -/
def runMinimalReplace (rows : List Row) (s : Option (List MinRow)) :
    Option (List MinRow) :=
  minimal_to_sql_replace (minimal_persisted rows) s

/-! ### PostgreSQL variant (`src/frontend/seed_postgres.py`)

`csv.DictReader` hands `load_csv_data` one dict of strings per row; a field
that is empty in the file is the empty string.  `float(...)` and `int(...)`
raise `ValueError` on unparseable non-empty strings; `main` catches any
exception and exits with status 1. -/

/-- One raw CSV row as `csv.DictReader` presents it. -/
structure PgRawRow where
  id : String
  type : String
  timestamp : String
  x : String
  y : String
  heading : String
  area : String
  vest : String
  speed : String
  with_object : String
deriving DecidableEq

/-- `convert_boolean(value)` (lines 53-59). -/
def convert_boolean (value : String) : Option Bool :=
  if pyLower value ∈ ["true", "t", "1", "yes"] then some true
  else if pyLower value ∈ ["false", "f", "0", "no", ""] then some false
  else none

/-- The value bound for `with_object` in the insert tuple (line 84):
`convert_boolean(row['with_object']) if row['with_object'] else None`. -/
def withObjectField (s : String) : Option Bool :=
  if s ≠ "" then convert_boolean s else none

/-- One converted tuple, in the database's column types. -/
structure PgData where
  id : String
  cls : String
  t : String
  x : ℚ
  y : ℚ
  heading : Option ℚ
  area : Option String
  vest : Option Int
  speed : Option ℚ
  with_object : Option Bool
deriving DecidableEq

/-- `float(s)`: raises on failure. -/
def reqFloat (s : String) : Except String ℚ :=
  match pyFloat? s with
  | some q => .ok q
  | none => .error ("could not convert string to float: " ++ s)

/-- `float(s) if s else None`. -/
def optFloat (s : String) : Except String (Option ℚ) :=
  if s = "" then .ok none else (reqFloat s).map some

/-- `int(s) if s else None`. -/
def optInt (s : String) : Except String (Option Int) :=
  if s = "" then .ok none
  else match pyInt? s with
    | some n => .ok (some n)
    | none => .error ("invalid literal for int: " ++ s)

/-- The tuple built for one row (lines 74-85), evaluated left to right; the
first failing conversion raises. -/
def convertRow (r : PgRawRow) : Except String PgData := do
  let xv ← reqFloat r.x
  let yv ← reqFloat r.y
  let hv ← optFloat r.heading
  let vv ← optInt r.vest
  let sv ← optFloat r.speed
  pure { id := r.id, cls := r.type, t := r.timestamp, x := xv, y := yv,
         heading := hv, area := if r.area = "" then none else some r.area,
         vest := vv, speed := sv, with_object := withObjectField r.with_object }

/-- The batching loop of `load_csv_data` (lines 69-107): accumulate converted
tuples, insert and commit a batch whenever it reaches 1000 rows, then insert
and commit the remainder.  Returns the committed batches in order and the
reported `total_rows`. -/
def loadLoop : List PgRawRow → List PgData → List (List PgData) → Nat →
    Except String (List (List PgData) × Nat)
  | [], batch, committed, total =>
      if batch.isEmpty then .ok (committed, total)
      else .ok (committed ++ [batch], total + batch.length)
  | r :: rest, batch, committed, total =>
      match convertRow r with
      | .error e => .error e
      | .ok d =>
          let batch2 := batch ++ [d]
          if 1000 ≤ batch2.length then
            loadLoop rest [] (committed ++ [batch2]) (total + batch2.length)
          else
            loadLoop rest batch2 committed total

/-- `load_csv_data(conn, csv_path)` over the parsed rows. -/
def load_csv_data (rows : List PgRawRow) : Except String (List (List PgData) × Nat) :=
  loadLoop rows [] [] 0

/-- Whether a row's conversion succeeds. -/
def convOkRow (r : PgRawRow) : Bool :=
  match convertRow r with
  | .ok _ => true
  | .error _ => false

/-- The successfully converted tuples, in input order. -/
def convertedRows (rows : List PgRawRow) : List PgData :=
  rows.filterMap fun r => (convertRow r).toOption

/-- Exit status of the PostgreSQL run's load stage: `main` wraps everything
in one `try`, prints the error and exits 1 on any exception. -/
def pgRunExit (rows : List PgRawRow) : Nat :=
  match load_csv_data rows with
  | .ok _ => 0
  | .error _ => 1

/-- Python truthiness of `os.environ.get(...)`: `None` and the empty string
are falsy. -/
def strFalsy : Option String → Bool
  | none => true
  | some s => s = ""

/-- `main`'s connection-string resolution (lines 113-122): the environment
variable first, `sys.argv[1]` only as fallback when the environment value is
falsy, and `sys.exit(1)` when the result is still falsy.  `.error 1` is the
exit before any connection. -/
def database_url_main (envVar : Option String) (argv : List String) :
    Except Nat String :=
  let url := if strFalsy envVar && decide (1 < argv.length) then some (argv.getD 1 "")
             else envVar
  if strFalsy url then .error 1 else .ok (url.getD "")

/-! ### Concrete inputs used by counterexamples and witnesses -/

/-- A row whose `x` does not parse as a number (the spec scenario's row `a2`). -/
def rowBadX : Row :=
  { id := .str "a2", cls := .str "veh", x := .str "bad", y := .num 3,
    heading := .null, speed := .null, vest := .null, area := .null,
    t := some 1700000001 }

/-- A fully valid row. -/
def goodRow : Row :=
  { id := .str "a1", cls := .str "ped", x := .str "1.0", y := .num 2,
    heading := .null, speed := .null, vest := .null, area := .str "z1",
    t := some 1700000000 }

/-- A valid row repeated to form a duplicate `(id, t)` pair. -/
def dupRow : Row :=
  { id := .str "a1", cls := .str "ped", x := .num 1, y := .num 2,
    heading := .null, speed := .null, vest := .null, area := .null,
    t := some 1700000000 }

/-- What the full SQLite variant persists for `dupRow`. -/
def dupDB : DBRow :=
  { id := .str "a1", cls := .str "ped", t := some 1700000000,
    x := some 1, y := some 2, heading := none, vest := none, speed := none,
    area := none }

/-- What the full SQLite variant persists for `goodRow`. -/
def goodDB : DBRow :=
  { id := .str "a1", cls := .str "ped", t := some 1700000000,
    x := some 1, y := some 2, heading := none, vest := none, speed := none,
    area := some "z1" }

/-- A PostgreSQL CSV row whose `x` field is not a float literal. -/
def pgBadRow : PgRawRow :=
  { id := "a2", type := "veh", timestamp := "1700000001000", x := "bad",
    y := "3.0", heading := "", area := "", vest := "", speed := "",
    with_object := "" }

/-- A PostgreSQL CSV row every conversion of which succeeds. -/
def pgGoodRow : PgRawRow :=
  { id := "a1", type := "ped", timestamp := "1700000000", x := "1.0",
    y := "2.0", heading := "", area := "zone1", vest := "1", speed := "0.5",
    with_object := "true" }

/-- Three valid PostgreSQL rows. -/
def pgRows3 : List PgRawRow := [pgGoodRow, pgGoodRow, pgGoodRow]

/-! ### C1 — epoch-scale selection for numeric timestamp columns -/

/-- A member of a list is at most the list's defaulted maximum. -/
theorem mem_le_max?_getD {α : Type} [LinearOrder α] (l : List α) (z v : α)
    (hv : v ∈ l) : v ≤ (l.max?).getD z := by
  cases hm : l.max? with
  | none =>
      rw [List.max?_eq_none_iff] at hm
      subst hm
      cases hv
  | some m =>
      have h := (List.max?_le_iff (fun a b c => max_le_iff) hm).mp (le_refl m) v hv
      simpa using h

/-- An upper bound of every member bounds the defaulted maximum. -/
theorem max?_getD_le_of_forall {α : Type} [LinearOrder α] (l : List α) (z B : α)
    (hz : z ≤ B) (h : ∀ v ∈ l, v ≤ B) : (l.max?).getD z ≤ B := by
  cases hm : l.max? with
  | none => simpa using hz
  | some m =>
      have hmem : m ∈ l := List.max?_mem (fun a b => max_choice a b) hm
      simpa using h m hmem

/-- A successful raising conversion converts every value with the one factor,
and every value's nanosecond instant was within range. -/
theorem toDatetimeVals_ok (f : ℚ) (vals ts : List ℚ)
    (h : toDatetimeVals f vals = .ok ts) :
    ts = vals.map (fun v => v / f) ∧
    ∀ v ∈ vals, v * nsPerUnit f ≤ maxTimestampNs := by
  induction vals generalizing ts with
  | nil =>
      rw [toDatetimeVals] at h
      cases h
      exact ⟨rfl, by simp⟩
  | cons v rest ih =>
      rw [toDatetimeVals] at h
      by_cases hb : maxTimestampNs < v * nsPerUnit f ∨ v * nsPerUnit f < minTimestampNs
      · rw [if_pos hb] at h
        exact Except.noConfusion h
      · rw [if_neg hb] at h
        push_neg at hb
        cases hrec : toDatetimeVals f rest with
        | error e =>
            rw [hrec] at h
            exact Except.noConfusion h
        | ok ts2 =>
            rw [hrec] at h
            obtain ⟨hmap, hbnd⟩ := ih ts2 hrec
            cases h
            refine ⟨by simp [hmap], ?_⟩
            intro w hw
            rcases List.mem_cons.mp hw with rfl | hw2
            · exact hb.1
            · exact hbnd w hw2

/-- `astype('int64')` raises whenever the numeric column holds a missing
value. -/
theorem numericValues_error (col : List Cell) (h : Cell.null ∈ col) :
    numericValues col =
      .error "Cannot convert non-finite values (NA or inf) to integer" := by
  induction col with
  | nil => cases h
  | cons c rest ih =>
      cases c with
      | null => rfl
      | str s => rfl
      | num q =>
          have hr : Cell.null ∈ rest := by
            rcases List.mem_cons.mp h with hc | hr
            · exact absurd hc (by simp)
            · exact hr
          simp only [numericValues, ih hr]

/-- Claim C1 as stated is false: for the one-value numeric column
`10^10 + 1/2` the maximum exceeds 10^10 but no value is converted as
milliseconds — the int64-cast maximum is exactly 10^10, so the code picks
`unit='s'`, and `to_datetime` then raises `OutOfBoundsDatetime`
(10^10 s is beyond the datetime64[ns] range): the run aborts and converts
nothing. -/
theorem C1_counterexample :
    ¬ specNumericUnitRule [(10000000000 : ℚ) + 1/2] ∧
    normalizeNumericValues [(10000000000 : ℚ) + 1/2] =
      .error "Out of bounds nanosecond timestamp" := by
  constructor
  · intro h
    have h1 := h.1 (by decide)
    exact absurd h1 (by decide)
  · decide

/-- Claim C1, amended: on every run where the numeric conversion completes
(no value leaves the datetime64[ns] range), the claim's rule holds exactly as
stated — the interpretation is uniform over the column and every value is
converted as milliseconds when the column's maximum exceeds 10^10, as seconds
otherwise.  When some value leaves the range under the chosen unit the run
aborts with `OutOfBoundsDatetime` instead of converting; in particular every
column whose maximum lies in `(10^10, 10^10 + 1)` is sent to the seconds
branch (the int64-cast cutoff) and aborts there. -/
theorem C1_amended_thm (vals ts : List ℚ)
    (hok : normalizeNumericValues vals = .ok ts) :
    ((10000000000 : ℚ) < (vals.max?).getD 0 →
      ts = vals.map (fun v => v / 1000)) ∧
    (¬ (10000000000 : ℚ) < (vals.max?).getD 0 → ts = vals) ∧
    ts = vals.map (fun v => v / epochFactor vals) := by
  obtain ⟨hmap, hbnd⟩ := toDatetimeVals_ok (epochFactor vals) vals ts hok
  by_cases hf : epochCutoff < int64ColumnMax vals
  · have hfac : epochFactor vals = 1000 := by rw [epochFactor, if_pos hf]
    have hmax : (10000000000 : ℚ) < (vals.max?).getD 0 := by
      rw [int64ColumnMax] at hf
      cases hm : (vals.map int64Cast).max? with
      | none =>
          rw [hm] at hf
          simp [epochCutoff] at hf
      | some t0 =>
          rw [hm] at hf
          simp only [Option.getD_some] at hf
          have ht0mem : t0 ∈ vals.map int64Cast :=
            List.max?_mem (fun a b => max_choice a b) hm
          obtain ⟨v0, hv0, hcast⟩ := List.mem_map.mp ht0mem
          have hv0nn : 0 ≤ v0 := by
            by_contra hneg
            push_neg at hneg
            have hle : int64Cast v0 ≤ 0 := by
              rw [int64Cast, if_neg (not_le.mpr hneg)]
              exact Int.ceil_le.mpr (by exact_mod_cast le_of_lt hneg)
            rw [hcast] at hle
            rw [epochCutoff] at hf
            omega
          have hfl : ((int64Cast v0 : ℤ) : ℚ) ≤ v0 := by
            rw [int64Cast, if_pos hv0nn]
            exact Int.floor_le v0
          have hv0big : (10000000000 : ℚ) < v0 := by
            have h1 : ((epochCutoff : ℤ) : ℚ) < ((int64Cast v0 : ℤ) : ℚ) := by
              exact_mod_cast hcast ▸ hf
            have h2 : ((epochCutoff : ℤ) : ℚ) < v0 := lt_of_lt_of_le h1 hfl
            simpa [epochCutoff] using h2
          exact lt_of_lt_of_le hv0big (mem_le_max?_getD vals 0 v0 hv0)
    refine ⟨fun _ => by simp only [hmap, hfac], fun hcon => absurd hmax hcon,
      hmap⟩
  · have hfac : epochFactor vals = 1 := by rw [epochFactor, if_neg hf]
    have hns : nsPerUnit (epochFactor vals) = 1000000000 := by
      rw [hfac]
      norm_num [nsPerUnit]
    have hub : ∀ v ∈ vals, v ≤ maxTimestampNs / 1000000000 := by
      intro v hv
      have hv9 := hbnd v hv
      rw [hns] at hv9
      exact (le_div_iff₀ (by norm_num)).mpr hv9
    have hmaxle : (vals.max?).getD 0 ≤ maxTimestampNs / 1000000000 :=
      max?_getD_le_of_forall vals 0 _ (by norm_num [maxTimestampNs]) hub
    have hnotgt : ¬ (10000000000 : ℚ) < (vals.max?).getD 0 := by
      intro hgt
      have hcmp : (10000000000 : ℚ) < maxTimestampNs / 1000000000 :=
        lt_of_lt_of_le hgt hmaxle
      norm_num [maxTimestampNs] at hcmp
    refine ⟨fun hcon => absurd hcon hnotgt, fun _ => ?_, hmap⟩
    simp only [hmap, hfac, div_one]
    exact List.map_id vals

/-- Witness for C1: the one-value column `2·10^10` converts successfully as
milliseconds, and a seconds-scale column converts unchanged. -/
theorem C1_witness :
    normalizeNumericValues [(20000000000 : ℚ)] = .ok [(20000000 : ℚ)] ∧
    ([(20000000 : ℚ)] = [(20000000000 : ℚ)].map (fun v => v / 1000)) ∧
    normalizeNumericValues [(1700000000 : ℚ)] = .ok [(1700000000 : ℚ)] ∧
    ([(1700000000 : ℚ)] = [(1700000000 : ℚ)]) := by
  refine ⟨by decide, ?_, by decide, ?_⟩
  · exact (C1_amended_thm [(20000000000 : ℚ)] [(20000000 : ℚ)] (by decide)).1
      (by decide)
  · exact (C1_amended_thm [(1700000000 : ℚ)] [(1700000000 : ℚ)] (by decide)).2.1
      (by decide)

/-! ### C2 — rows with missing x, y or timestamp are never persisted -/

/-- Claim C2 as stated is false for the minimal variant: a row whose `x`
fails numeric coercion is still persisted, with `x = None`. -/
theorem C2_counterexample :
    minimal_persisted [rowBadX] =
      [{ id := .str "a2", cls := .str "veh", t := some 1700000001,
         x := none, y := some 3, heading := none, vest := none,
         speed := none }] := by decide

/-- Claim C2, amended: in the full SQLite variant every persisted row has
non-null `x`, `y` and `t`; the minimal variant drops no rows and can persist
nulls, and the PostgreSQL variant aborts instead of persisting nulls. -/
theorem C2_amended_thm (rows : List Row) (s : Store) (tb : Table)
    (h : runBackendReplace rows s = some tb) :
    ∀ dr ∈ tb.rows, dr.x ≠ none ∧ dr.y ≠ none ∧ dr.t ≠ none := by
  intro dr hdr
  simp only [runBackendReplace, to_sql_replace] at h
  obtain rfl : tb = ⟨(process_dataframe rows).map projectRow, false⟩ :=
    (Option.some.inj h).symm
  simp only [List.mem_map] at hdr
  obtain ⟨pr, hpr, rfl⟩ := hdr
  simp only [process_dataframe, List.mem_filter, Bool.and_eq_true,
    List.mem_map] at hpr
  obtain ⟨⟨⟨r, hr, rfl⟩, hx, hy⟩, ht⟩ := hpr
  refine ⟨?_, ?_, ?_⟩ <;>
    simp [projectRow, ← Option.isSome_iff_ne_none, hx, hy, ht]

/-- Witness for C2: the valid row `goodRow` is persisted with all three
fields present. -/
theorem C2_witness : goodDB.x ≠ none ∧ goodDB.y ≠ none ∧ goodDB.t ≠ none :=
  C2_amended_thm [goodRow] none ⟨[goodDB], false⟩ (by decide) goodDB (by decide)

/-! ### C3 — the (id, t) natural key in the SQLite variant -/

/-- Claim C3 fails on the code: `create_schema` does create
`PRIMARY KEY (id, t)`, but the load then runs
`to_sql(..., if_exists='replace')`, which drops that table and recreates it
without constraints; two input rows with the same `(id, t)` are both
persisted. -/
theorem C3_thm :
    runBackendReplace [dupRow, dupRow] none =
      some { rows := [dupDB, dupDB], hasPKidT := false } ∧
    dupDB.id = Cell.str "a1" ∧ dupDB.t = some 1700000000 := by decide

/-! ### C4 — class-alias resolution -/

/-- Claim C4 as stated is false: the minimal variant's alias list omits
`type`, so a `type` header is not renamed there (while the full variant does
rename it). -/
theorem C4_counterexample :
    renameClassColumnsMinimal ["type", "id"] = ["type", "id"] ∧
    "class" ∉ renameClassColumnsMinimal ["type", "id"] ∧
    renameClassColumns ["type", "id"] = ["class", "id"] := by decide

/-- Claim C4, amended: the full SQLite variant renames any header whose
lowercase form is `class_name`, `label` or `type` to `class`; the minimal
variant does so only for `class_name` and `label`. -/
theorem C4_amended_thm (hs : List String) (c : String) (hmem : c ∈ hs) :
    (pyLower c ∈ classAliases → "class" ∈ renameClassColumns hs) ∧
    (pyLower c ∈ classAliasesMinimal → "class" ∈ renameClassColumnsMinimal hs) := by
  constructor <;> intro hal
  · unfold renameClassColumns
    exact List.mem_map.mpr ⟨c, hmem, by simp [hal]⟩
  · unfold renameClassColumnsMinimal
    exact List.mem_map.mpr ⟨c, hmem, by simp [hal]⟩

/-- Witness for C4: a capitalised `Type` header resolves to `class` in the
full variant, and `Label` does in the minimal one. -/
theorem C4_witness :
    "class" ∈ renameClassColumns ["Type", "id"] ∧
    "class" ∈ renameClassColumnsMinimal ["Label"] :=
  ⟨(C4_amended_thm ["Type", "id"] "Type" (by decide)).1 (by decide),
   (C4_amended_thm ["Label"] "Label" (by decide)).2 (by decide)⟩

/-! ### C5 — per-row invalidity is never fatal -/

/-- Claim C5 as stated is false: in the PostgreSQL variant a row whose `x`
does not parse raises `ValueError` inside `load_csv_data`, which `main`
turns into exit status 1 — the whole run aborts.  The same invalid row is
merely dropped by the full SQLite variant. -/
theorem C5_counterexample :
    load_csv_data [pgBadRow] = .error "could not convert string to float: bad" ∧
    pgRunExit [pgBadRow] = 1 ∧
    process_dataframe [rowBadX] = [] := by decide

/-- Claim C5, amended: in the full SQLite variant, coordinate invalidity and
textual-timestamp parse failure are recovered locally — a row survives
`process_dataframe` exactly when it came from the input with its coerced `x`,
`y` and normalized `t` present, and for a textual timestamp column
(`errors='coerce'`) the exit status is independent of the rows and of the
per-row parse results.  This does not extend to numeric timestamp columns:
a missing value there makes `astype('int64')` raise, and a value outside the
datetime64[ns] range (e.g. 9.3·10^9 in the seconds branch) makes
`to_datetime` raise `OutOfBoundsDatetime`; either aborts the run with exit
status 1 and the store untouched.  In the PostgreSQL variant a coordinate
coercion failure likewise aborts the whole run. -/
theorem C5_amended_thm (rows : List Row) (pr : ProcRow) (headers : List String)
    (s : Store) (tsCol : List Cell) (textual : List (Option ℚ)) :
    (pr ∈ process_dataframe rows ↔
      ((∃ r ∈ rows, coerceRow r = pr) ∧ pr.x.isSome = true ∧
        pr.y.isSome = true ∧ pr.t.isSome = true)) ∧
    (isNumericDtype tsCol = false → ∀ (textual2 : List (Option ℚ)) (rows2 : List Row),
      (backendMainRun headers tsCol textual rows s).2 =
        (backendMainRun headers tsCol textual2 rows2 s).2) ∧
    (isNumericDtype tsCol = true → Cell.null ∈ tsCol →
      normalizeTimestampColumn tsCol textual =
        .error "Cannot convert non-finite values (NA or inf) to integer" ∧
      backendMainRun ["t", "id", "x", "y", "class"] tsCol textual rows s = (s, 1)) ∧
    backendMainRun ["t", "id", "x", "y", "class"] [Cell.num 9300000000] textual
      rows s = (s, 1) := by
  refine ⟨?_, ?_, ?_, ?_⟩
  · simp only [process_dataframe, List.mem_filter, Bool.and_eq_true, List.mem_map]
    tauto
  · intro hnum textual2 rows2
    unfold backendMainRun
    cases hinf : infer_timestamp_col headers with
    | error e => rfl
    | ok c =>
        simp only [normalizeTimestampColumn, hnum, Bool.false_eq_true, if_false]
        by_cases hreq : (requiredCols.all fun c =>
            (backendResolvedHeaders headers).contains c) = true
        · rw [if_pos hreq, if_pos hreq]
        · rw [if_neg hreq, if_neg hreq]
  · intro hnum hmem
    have herr : normalizeTimestampColumn tsCol textual =
        .error "Cannot convert non-finite values (NA or inf) to integer" := by
      simp only [normalizeTimestampColumn, hnum, if_true,
        normalizeNumericColumn, numericValues_error tsCol hmem]
    refine ⟨herr, ?_⟩
    unfold backendMainRun
    simp [infer_timestamp_col, tsCandidates, herr]
  · rfl

/-! ### C6 — fixed-size batching with per-batch commits -/

/-- Invariant of the batching loop of `load_csv_data`: when every remaining
row converts, the loop succeeds; the committed batches joined give back the
converted rows in order after what was already committed and buffered; the
reported total grows by exactly the number of rows; every batch except
possibly the last has exactly 1000 rows, and every batch is nonempty with at
most 1000 rows. -/
theorem loadLoop_spec (rows : List PgRawRow) :
    ∀ (batch : List PgData) (committed : List (List PgData)) (total : Nat),
      (∀ r ∈ rows, convOkRow r = true) →
      batch.length < 1000 →
      (∀ b ∈ committed, b.length = 1000) →
      ∃ B T, loadLoop rows batch committed total = .ok (B, T) ∧
        B.flatten = committed.flatten ++ batch ++ convertedRows rows ∧
        T = total + batch.length + rows.length ∧
        (∀ b ∈ B.dropLast, b.length = 1000) ∧
        (∀ b ∈ B, 0 < b.length ∧ b.length ≤ 1000) := by
  induction rows with
  | nil =>
      intro batch committed total _ hb hc
      cases batch with
      | nil =>
          refine ⟨committed, total, by simp [loadLoop], ?_, by simp, ?_, ?_⟩
          · simp [convertedRows]
          · intro b hbmem
            exact hc b ((List.dropLast_sublist committed).subset hbmem)
          · intro b hbmem
            have := hc b hbmem
            omega
      | cons d ds =>
          refine ⟨committed ++ [d :: ds], total + (d :: ds).length,
            by simp [loadLoop], ?_, by simp, ?_, ?_⟩
          · simp [convertedRows]
          · rw [List.dropLast_concat]
            exact hc
          · intro b hbmem
            rcases List.mem_append.mp hbmem with hmem | hmem
            · have := hc b hmem
              omega
            · simp only [List.mem_singleton] at hmem
              subst hmem
              simp only [List.length_cons] at hb ⊢
              omega
  | cons r rest ih =>
      intro batch committed total hconv hb hc
      have hr : convOkRow r = true := hconv r (by simp)
      cases hcr : convertRow r with
      | error e =>
          rw [convOkRow, hcr] at hr
          simp at hr
      | ok d =>
          have hrest : ∀ x ∈ rest, convOkRow x = true :=
            fun x hx => hconv x (by simp [hx])
          by_cases hlen : 1000 ≤ (batch ++ [d]).length
          · have hlen1000 : (batch ++ [d]).length = 1000 := by
              simp only [List.length_append, List.length_singleton] at hlen ⊢
              omega
            obtain ⟨B, T, h1, h2, h3, h4, h5⟩ :=
              ih [] (committed ++ [batch ++ [d]]) (total + (batch ++ [d]).length)
                hrest (by simp)
                (by intro b hbm
                    rcases List.mem_append.mp hbm with hmem | hmem
                    · exact hc b hmem
                    · simp only [List.mem_singleton] at hmem
                      subst hmem
                      exact hlen1000)
            refine ⟨B, T, ?_, ?_, ?_, h4, h5⟩
            · simp only [loadLoop, hcr]
              rw [if_pos hlen]
              exact h1
            · rw [h2]
              simp [convertedRows, List.filterMap_cons, hcr, Except.toOption,
                List.flatten_append]
            · simp only [List.length_nil, List.length_append, List.length_singleton,
                List.length_cons, Nat.add_zero] at h3 ⊢
              omega
          · obtain ⟨B, T, h1, h2, h3, h4, h5⟩ :=
              ih (batch ++ [d]) committed total hrest
                (by simp only [List.length_append, List.length_singleton] at hlen ⊢
                    omega) hc
            refine ⟨B, T, ?_, ?_, ?_, h4, h5⟩
            · simp only [loadLoop, hcr]
              rw [if_neg hlen]
              exact h1
            · rw [h2]
              simp [convertedRows, List.filterMap_cons, hcr, Except.toOption]
            · simp only [List.length_nil, List.length_append, List.length_singleton,
                List.length_cons] at h3 ⊢
              omega

/-- Claim C6: when every record converts, the loader partitions the input in
order into batches of exactly 1000 (a possibly smaller, nonempty final batch
apart), each committed on its own, and the reported total equals the input
length. -/
theorem C6_thm (rows : List PgRawRow) (h : ∀ r ∈ rows, convOkRow r = true) :
    ∃ B total, load_csv_data rows = .ok (B, total) ∧
      B.flatten = convertedRows rows ∧
      total = rows.length ∧
      (∀ b ∈ B.dropLast, b.length = 1000) ∧
      (∀ b ∈ B, 0 < b.length ∧ b.length ≤ 1000) := by
  obtain ⟨B, T, h1, h2, h3, h4, h5⟩ :=
    loadLoop_spec rows [] [] 0 h (by simp) (by simp)
  exact ⟨B, T, h1, by simpa using h2, by simpa using h3, h4, h5⟩

/-- Witness for C6: three valid rows load as one batch of three, with the
reported total 3. -/
theorem C6_witness :
    ∃ B total, load_csv_data pgRows3 = .ok (B, total) ∧
      B.flatten = convertedRows pgRows3 ∧
      total = pgRows3.length ∧
      (∀ b ∈ B.dropLast, b.length = 1000) ∧
      (∀ b ∈ B, 0 < b.length ∧ b.length ≤ 1000) :=
  C6_thm pgRows3 (by decide)

/-! ### C7 — replace-mode idempotence -/

/-- Claim C7: in replace mode (`if_exists='replace'`) the final table is a
function of the input alone — the previous store contents are dropped — so a
second identical run leaves the store, its row count and its aggregate
statistics unchanged.  Holds for both SQLite variants. -/
theorem C7_thm (rows : List Row) (s : Store) (s2 : Option (List MinRow)) :
    runBackendReplace rows (runBackendReplace rows s) = runBackendReplace rows s ∧
    storeStats (runBackendReplace rows (runBackendReplace rows s)) =
      storeStats (runBackendReplace rows s) ∧
    runMinimalReplace rows (runMinimalReplace rows s2) = runMinimalReplace rows s2 := by
  exact ⟨rfl, rfl, rfl⟩

/-! ### C8 — timestamp-column resolution -/

/-- Claim C8: the resolver scans `[t, timestamp, time]` in order and returns
the first name present; when none is present it raises the schema error, and
`main` exits 1 with the store untouched (the resolution runs before any
database connection). -/
theorem C8_thm (headers : List String) (tsCol : List Cell)
    (textual : List (Option ℚ)) (rows : List Row) (s : Store) :
    (infer_timestamp_col headers =
      if "t" ∈ headers then .ok "t"
      else if "timestamp" ∈ headers then .ok "timestamp"
      else if "time" ∈ headers then .ok "time"
      else .error "No timestamp column found (expected one of t/timestamp/time)") ∧
    ("t" ∉ headers → "timestamp" ∉ headers → "time" ∉ headers →
      infer_timestamp_col headers =
        .error "No timestamp column found (expected one of t/timestamp/time)" ∧
      backendMainRun headers tsCol textual rows s = (s, 1)) := by
  have hch : infer_timestamp_col headers =
      if "t" ∈ headers then .ok "t"
      else if "timestamp" ∈ headers then .ok "timestamp"
      else if "time" ∈ headers then .ok "time"
      else .error "No timestamp column found (expected one of t/timestamp/time)" := by
    by_cases h1 : "t" ∈ headers <;> by_cases h2 : "timestamp" ∈ headers <;>
      by_cases h3 : "time" ∈ headers <;>
      simp [infer_timestamp_col, tsCandidates, List.find?, h1, h2, h3]
  refine ⟨hch, fun h1 h2 h3 => ?_⟩
  have herr : infer_timestamp_col headers =
      .error "No timestamp column found (expected one of t/timestamp/time)" := by
    rw [hch, if_neg h1, if_neg h2, if_neg h3]
  exact ⟨herr, by simp [backendMainRun, herr]⟩

/-! ### C9 — connection-string resolution -/

/-- Claim C9 as stated is false: when both the environment variable and a
command-line argument are given, the code uses the environment variable, not
the argument — `sys.argv[1]` is only read when `DATABASE_URL` is unset or
empty. -/
theorem C9_counterexample :
    database_url_main (some "postgres-env") ["seed_postgres.py", "postgres-arg"] =
      .ok "postgres-env" ∧
    ("postgres-env" : String) ≠ "postgres-arg" := by decide

/-- Claim C9, amended: the environment variable takes priority; the
command-line argument is used only when the environment value is unset or
empty; when both are missing the run exits with status 1 before connecting. -/
theorem C9_amended_thm (envVar : Option String) (argv : List String) :
    (∀ u, envVar = some u → u ≠ "" → database_url_main envVar argv = .ok u) ∧
    (strFalsy envVar = true → 1 < argv.length → argv.getD 1 "" ≠ "" →
      database_url_main envVar argv = .ok (argv.getD 1 "")) ∧
    (strFalsy envVar = true → argv.length ≤ 1 →
      database_url_main envVar argv = .error 1) := by
  refine ⟨?_, ?_, ?_⟩
  · rintro u rfl hu
    simp [database_url_main, strFalsy, hu]
  · intro h1 h2 h3
    cases envVar with
    | none =>
        simp [database_url_main, strFalsy, h2]
        simpa [h2] using h3
    | some u =>
        have hu : u = "" := by simpa [strFalsy] using h1
        subst hu
        simp [database_url_main, strFalsy, h2]
        simpa [h2] using h3
  · intro h1 h2
    have hn : ¬ 1 < argv.length := by omega
    cases envVar with
    | none => simp [database_url_main, strFalsy, hn]
    | some u =>
        have hu : u = "" := by simpa [strFalsy] using h1
        subst hu
        simp [database_url_main, strFalsy, hn]

/-! ### C10 — boolean conversion and the with_object guard -/

/-- The four alias lists of `convert_boolean` are disjoint. -/
theorem convert_boolean_lists_disjoint (t : String)
    (h1 : t ∈ ["true", "t", "1", "yes"])
    (h2 : t ∈ ["false", "f", "0", "no", ""]) : False := by
  simp only [List.mem_cons, List.not_mem_nil, or_false] at h1
  rcases h1 with rfl | rfl | rfl | rfl <;> revert h2 <;> decide

/-- Claim C10: `convert_boolean` returns `True` exactly on lowercased
`true/t/1/yes`, `False` exactly on lowercased `false/f/0/no` and the empty
string, `None` on everything else; and the caller's guard sends an empty
`with_object` to `None` without calling `convert_boolean`. -/
theorem C10_thm (s : String) :
    (convert_boolean s = some true ↔ pyLower s ∈ ["true", "t", "1", "yes"]) ∧
    (convert_boolean s = some false ↔ pyLower s ∈ ["false", "f", "0", "no", ""]) ∧
    (convert_boolean s = none ↔
      (pyLower s ∉ ["true", "t", "1", "yes"] ∧
        pyLower s ∉ ["false", "f", "0", "no", ""])) ∧
    withObjectField "" = none := by
  refine ⟨?_, ?_, ?_, by decide⟩ <;>
  · simp only [convert_boolean]
    by_cases h1 : pyLower s ∈ ["true", "t", "1", "yes"] <;>
      by_cases h2 : pyLower s ∈ ["false", "f", "0", "no", ""] <;>
      simp [h1, h2] <;>
      exact convert_boolean_lists_disjoint (pyLower s) h1 h2

end KPI
